import Mathlib

/-!
# Verification of the invoice-management backend

A shallow embedding of the document-to-invoice pipeline of the `invoices`
repository (FastAPI backend under `src/backend/app`), together with proofs
about the claims of its specification.

Conventions of the embedding:
* Python `float` money amounts and percentages are modelled as `Rat`
  (the handlers only add, multiply and divide them).
* SQLAlchemy rows are Lean structures; the relational store is a record of
  lists (`DB`), and blob storage is a list of stored keys (`DB.blobs`).
* A FastAPI handler is a pure function returning `Except ApiError α`,
  where `ApiError` mirrors the `HTTPException` status codes raised by the
  routes; an unhandled Python exception (which FastAPI surfaces as a 500)
  is its own constructor.  An `Except.error` result returns no new state:
  the session is never committed on an error path.
* Exogenous effects (text extraction, the AI call, the Gmail API,
  `uuid.uuid4`, wall-clock time) are parameters of the handlers.
* `PendingDocument.status` is a plain string, exactly as at runtime: the
  column is `ENUM('pending', 'processed', 'rejected')` over strings, not
  the unused `DocumentStatus` Python enum class.
-/

namespace Invoices

/-! ## Python semantics helpers

All string operations are written over character lists with structural
recursion so that every definition evaluates inside the kernel. -/

/-- Python `s.strip()` (over the ASCII whitespace characters). -/
def pyStrip (s : String) : String :=
  ⟨((s.toList.dropWhile Char.isWhitespace).reverse.dropWhile Char.isWhitespace).reverse⟩

/-- Python `s.lower()`. -/
def pyLower (s : String) : String :=
  ⟨s.toList.map Char.toLower⟩

/-- Python `s.endswith(t)`. -/
def pyEndsWith (s t : String) : Bool :=
  t.toList.isSuffixOf s.toList

/-- Split a character list at every occurrence of a non-empty separator,
left to right; the fuel argument (any value above the list length) makes
the recursion structural. -/
def splitSepFuel (sep : List Char) : Nat → List Char → List (List Char)
  | 0, _ => []
  | _ + 1, [] => [[]]
  | fuel + 1, c :: cs =>
    if sep ≠ [] && sep.isPrefixOf (c :: cs) then
      [] :: splitSepFuel sep fuel ((c :: cs).drop sep.length)
    else
      match splitSepFuel sep fuel cs with
      | [] => [[c]]
      | h :: t => (c :: h) :: t

/-- Python `s.split(sep)` for a non-empty separator. -/
def pySplitOn (s sep : String) : List String :=
  (splitSepFuel sep.toList (s.toList.length + 1) s.toList).map List.asString

/-- Python `pat in s` substring containment (for non-empty `pat`). -/
def strContains (s pat : String) : Bool :=
  (pySplitOn s pat).length != 1

/-- Python `pathlib.Path(p).name`: the final path component. -/
def pathName (p : String) : String :=
  (pySplitOn p "/").getLastD ""

/-- Python `pathlib.Path(p).suffix`: the extension of the final component,
including the dot; empty when the name has no dot, starts with its only dot,
or ends with the dot. -/
def pathSuffix (p : String) : String :=
  let name := pathName p
  let parts := pySplitOn name "."
  if parts.length ≤ 1 then ""
  else
    let last := parts.getLastD ""
    if last = "" then ""
    else if parts.length = 2 && parts.headD "" = "" then ""
    else "." ++ last

def isDigits (s : String) : Bool :=
  s.length > 0 && s.toList.all Char.isDigit

def natOfDigits (s : String) : Nat :=
  s.toList.foldl (fun a c => a * 10 + (c.toNat - 48)) 0

/-- A JSON value as returned for a field by the AI extraction response
(`null`, a number, or a string). -/
inductive PyVal where
  | none
  | num (q : Rat)
  | str (s : String)
deriving Repr, DecidableEq

/-- Python truthiness of a `PyVal`: `None`, `0` and `""` are falsy. -/
def PyVal.truthy : PyVal → Bool
  | .none => false
  | .num q => q != 0
  | .str s => s != ""

/-- Python truthiness of an optional string. -/
def optStrTruthy : Option String → Bool
  | Option.none => false
  | some s => s != ""

/-- Python `str(v)` for a `PyVal`, used only inside error messages; the
decimal rendering of numbers is abstracted as `num/den`. -/
def PyVal.pyStr : PyVal → String
  | .none => "None"
  | .num q => toString q.num ++ "/" ++ toString q.den
  | .str s => s

/-- Python `str(v)` of an optional string (`None` renders as `"None"`). -/
def optPyStr : Option String → String
  | Option.none => "None"
  | some s => s

/-- Python `float(v)` on a JSON value, `Option.none` for the
`ValueError`/`TypeError` cases.  String parsing covers plain decimal
literals (optional sign, digits, one optional dot), which is what the
extraction pipeline can produce. -/
def pyFloat (v : PyVal) : Option Rat :=
  match v with
  | .none => Option.none
  | .num q => some q
  | .str s =>
    let cs := (pyStrip s).toList
    let (sign, cs) : Rat × List Char :=
      match cs with
      | '-' :: rest => (-1, rest)
      | '+' :: rest => (1, rest)
      | rest => (1, rest)
    let digitsVal (l : List Char) : Nat := l.foldl (fun a c => a * 10 + (c.toNat - 48)) 0
    match splitSepFuel ['.'] (cs.length + 1) cs with
    | [ipart] =>
      if ipart ≠ [] && ipart.all Char.isDigit then
        some (sign * (digitsVal ipart : Rat))
      else Option.none
    | [ipart, fpart] =>
      if ipart.isEmpty && fpart.isEmpty then Option.none
      else if (ipart.isEmpty || ipart.all Char.isDigit) &&
          (fpart.isEmpty || fpart.all Char.isDigit) then
        some (sign * ((digitsVal ipart : Rat) +
          (digitsVal fpart : Rat) / ((10 : Rat) ^ fpart.length)))
      else Option.none
    | _ => Option.none

/-- A Python `datetime.date`. -/
structure PyDate where
  year : Nat
  month : Nat
  day : Nat
deriving Repr, DecidableEq

/-- Lexicographic `a <= b` on dates. -/
def PyDate.leb (a b : PyDate) : Bool :=
  if a.year != b.year then a.year < b.year
  else if a.month != b.month then a.month < b.month
  else a.day ≤ b.day

/-- Lexicographic `a < b` on dates. -/
def PyDate.ltb (a b : PyDate) : Bool :=
  !(PyDate.leb b a)

def daysInMonth (y m : Nat) : Nat :=
  if m = 2 then
    if (y % 4 == 0 && y % 100 != 0) || y % 400 == 0 then 29 else 28
  else if [1, 3, 5, 7, 8, 10, 12].contains m then 31
  else 30

/-- Python `datetime.date.fromisoformat` on the canonical `YYYY-MM-DD`
form, validating the calendar (month range, day range, leap years, year
in 1..9999). -/
def date_fromisoformat (s : String) : Option PyDate :=
  match pySplitOn s "-" with
  | [y, m, d] =>
    if y.length == 4 && m.length == 2 && d.length == 2 &&
        isDigits y && isDigits m && isDigits d then
      let yn := natOfDigits y
      let mn := natOfDigits m
      let dn := natOfDigits d
      if 1 ≤ yn && 1 ≤ mn && mn ≤ 12 && 1 ≤ dn && dn ≤ daysInMonth yn mn then
        some ⟨yn, mn, dn⟩
      else Option.none
    else Option.none
  | _ => Option.none

/-! ## Data model (`app/models`) -/

/-- Model of `app/models/workspace.py`: a workspace owned by one user. -/
structure Workspace where
  id : Nat
  user_id : Nat
  name : String
deriving Repr, DecidableEq

/-- Model of `app/models/supplier.py`: a supplier of a workspace, with a nullable
email and a markup percentage. -/
structure Supplier where
  id : Nat
  workspace_id : Nat
  name : String
  email : Option String
  markup_percentage : Rat
deriving Repr, DecidableEq

/-- Model of `app/models/invoice.py`: an invoice derived from a document. -/
structure Invoice where
  id : Nat
  supplier_id : Nat
  workspace_id : Nat
  original_total : Rat
  markup_total : Rat
  pdf_url : String
  invoice_date : Option PyDate
deriving Repr, DecidableEq

/-- Model of `app/models/pending_document.py`: a document awaiting review.  The
`status` column is a string-valued SQL enum, so the attribute is a plain
Python string at runtime. -/
structure PendingDocument where
  id : Nat
  workspace_id : Nat
  pdf_url : String
  filename : String
  status : String
  gmail_message_id : Option String
  processed_at : Option Nat
deriving Repr, DecidableEq

/-- Model of `app/models/processed_email.py`: a dedup marker; the table's primary
key is `gmail_message_id` alone. -/
structure ProcessedEmail where
  gmail_message_id : String
  workspace_id : Nat
deriving Repr, DecidableEq

/-- The persistent state: the relational store plus the blob store
(`blobs` is the list of stored blob keys). -/
structure DB where
  workspaces : List Workspace
  suppliers : List Supplier
  invoices : List Invoice
  documents : List PendingDocument
  processed_emails : List ProcessedEmail
  blobs : List String
  next_workspace_id : Nat
  next_invoice_id : Nat
  next_document_id : Nat
deriving Repr, DecidableEq

instance : Inhabited DB := ⟨⟨[], [], [], [], [], [], 0, 0, 0⟩⟩

instance {ε α : Type _} [DecidableEq ε] [DecidableEq α] : DecidableEq (Except ε α) := fun a b =>
  match a, b with
  | .ok x, .ok y =>
    if h : x = y then isTrue (by rw [h]) else isFalse (by intro hh; cases hh; exact h rfl)
  | .error x, .error y =>
    if h : x = y then isTrue (by rw [h]) else isFalse (by intro hh; cases hh; exact h rfl)
  | .ok _, .error _ => isFalse (by intro hh; cases hh)
  | .error _, .ok _ => isFalse (by intro hh; cases hh)

/-! ## Errors

`ApiError` mirrors the `HTTPException`s of the routes:
`notFound` is 404, `badRequest` is 400 (`InvalidInput`/`InvalidState`),
`badRequestProcessing` is 400 with the structured `ProcessingError` body,
`tooManyRequests` is 429, `internalError` is an explicit 500, and
`unhandledException` is a Python exception escaping the handler (surfaced
by the framework as a 500). -/

/-- Schema `ProcessingError` of `app/api/schemas.py`: structured 400 detail. -/
structure ProcessingError where
  detail : String
  error_type : String
  missing_fields : Option (List String)
  suggestion : Option String
deriving Repr, DecidableEq

inductive ApiError where
  | notFound (detail : String)
  | badRequest (detail : String)
  | badRequestProcessing (e : ProcessingError)
  | tooManyRequests (detail : String)
  | internalError (detail : String)
  | unhandledException (detail : String)
deriving Repr, DecidableEq

/-- The `AttributeError` raised by `document.status.value` when `status`
is a plain string (`str` has no attribute `value`). -/
def statusValueAttributeError : ApiError :=
  .unhandledException "AttributeError: 'str' object has no attribute 'value'"

/-! ## Ownership-scoped lookups -/

/-- The `Workspace` query by id filtered to the calling user. -/
def DB.findOwnedWorkspace (db : DB) (workspace_id user_id : Nat) : Option Workspace :=
  db.workspaces.find? (fun w => w.id == workspace_id && w.user_id == user_id)

def DB.ownsWorkspace (db : DB) (workspace_id user_id : Nat) : Bool :=
  (db.findOwnedWorkspace workspace_id user_id).isSome

/-- The `PendingDocument` query joined to `Workspace`, filtered by document id and
workspace owner. -/
def DB.findOwnedDocument (db : DB) (document_id user_id : Nat) : Option PendingDocument :=
  db.documents.find? (fun d => d.id == document_id &&
    db.workspaces.any (fun w => w.id == d.workspace_id && w.user_id == user_id))

/-- The `Invoice` query joined to `Workspace`, filtered by invoice id and owner. -/
def DB.findOwnedInvoice (db : DB) (invoice_id user_id : Nat) : Option Invoice :=
  db.invoices.find? (fun i => i.id == invoice_id &&
    db.workspaces.any (fun w => w.id == i.workspace_id && w.user_id == user_id))

/-- The `Supplier` query joined to `Workspace`, filtered by supplier id and owner. -/
def DB.findOwnedSupplier (db : DB) (supplier_id user_id : Nat) : Option Supplier :=
  db.suppliers.find? (fun s => s.id == supplier_id &&
    db.workspaces.any (fun w => w.id == s.workspace_id && w.user_id == user_id))

/-! ## Storage (`app/utils/storage.py`) -/

/-- Storage key of `save_document_file` (local storage layout):
`uploads/documents/{workspace_id}/{uuid}_{Path(filename).name}`.
The `uuid.uuid4()` value is an exogenous parameter. -/
def save_path (workspace_id : Nat) (uniqueId : String) (original_filename : String) : String :=
  "uploads/documents/" ++ toString workspace_id ++ "/" ++ uniqueId ++ "_" ++
    pathName original_filename

/-- Model of `delete_document_file`: removes the blob if present; returns whether a
blob was deleted (failures are tolerated by every caller). -/
def deleteBlob (blobs : List String) (key : String) : List String × Bool :=
  (blobs.erase key, blobs.contains key)

/-! ## Workspace routes (`app/api/routes/workspaces.py`) -/

/-- Handler of `POST /workspaces` (`create_workspace`): strips the submitted name and
falls back to `"Workspace 1"` when the stripped name is empty. -/
def create_workspace (db : DB) (caller : Nat) (name : String) : DB × Workspace :=
  let name := pyStrip name
  let name := if name = "" then "Workspace 1" else name
  let workspace : Workspace := { id := db.next_workspace_id, user_id := caller, name }
  ({ db with workspaces := db.workspaces ++ [workspace],
             next_workspace_id := db.next_workspace_id + 1 }, workspace)

/-- Handler of `PUT /workspaces/{id}` (`update_workspace`): same name normalization,
after the ownership check. -/
def update_workspace (db : DB) (caller workspace_id : Nat) (name : String) :
    Except ApiError (DB × Workspace) :=
  match db.findOwnedWorkspace workspace_id caller with
  | Option.none => .error (.notFound "Workspace not found")
  | some workspace =>
    let name := pyStrip name
    let name := if name = "" then "Workspace 1" else name
    let workspace' := { workspace with name }
    .ok ({ db with workspaces :=
            db.workspaces.map (fun w => if w.id == workspace.id then workspace' else w) },
         workspace')

/-! ## Document upload (`app/api/routes/documents.py`, `upload_document`) -/

def MAX_UPLOAD_SIZE : Nat := 10 * 1024 * 1024

def ALLOWED_EXTENSIONS : List String :=
  [".pdf", ".png", ".jpg", ".jpeg", ".webp", ".doc", ".docx"]

/-- Handler of `POST /documents/upload`: ownership check, extension allow-list on the
lower-cased suffix, strict 10 MiB size ceiling, then blob write and a
`pending` row.  `uniqueId` stands for the generated `uuid4`. -/
def upload_document (db : DB) (caller workspace_id : Nat)
    (filename : String) (file_size : Nat) (uniqueId : String) :
    Except ApiError (DB × PendingDocument) :=
  if !(db.ownsWorkspace workspace_id caller) then
    .error (.notFound "Workspace not found")
  else
    let file_ext := pyLower (pathSuffix filename)
    if !(ALLOWED_EXTENSIONS.contains file_ext) then
      .error (.badRequest ("File type " ++ file_ext ++
        " not supported. Allowed: .doc, .docx, .jpeg, .jpg, .pdf, .png, .webp"))
    else if file_size > MAX_UPLOAD_SIZE then
      .error (.badRequest "File too large. Max size: 10.0MB")
    else
      let file_path := save_path workspace_id uniqueId filename
      let document : PendingDocument := {
        id := db.next_document_id, workspace_id, pdf_url := file_path, filename,
        status := "pending", gmail_message_id := Option.none, processed_at := Option.none }
      .ok ({ db with documents := db.documents ++ [document],
                     blobs := db.blobs ++ [file_path],
                     next_document_id := db.next_document_id + 1 }, document)

/-! ## AI extraction (`app/services/ai_extraction.py`) -/

/-- The dictionary returned by `extract_invoice_data`: always the three
keys, each possibly `null`. -/
structure ExtractedData where
  supplier_email : Option String
  invoice_date : Option String
  total_amount : PyVal
deriving Repr, DecidableEq

/-- Model of `validate_extracted_data`: truthiness checks on `supplier_email` and
`total_amount`, then `float` coercion and positivity, then ISO-date
validation of a truthy `invoice_date`. -/
def validate_extracted_data (data : ExtractedData) : Bool × Option String :=
  if !(optStrTruthy data.supplier_email) then
    (false, some "Missing required field: supplier_email")
  else if !(data.total_amount.truthy) then
    (false, some "Missing required field: total_amount")
  else
    match pyFloat data.total_amount with
    | Option.none => (false, some ("Invalid total_amount: " ++ data.total_amount.pyStr))
    | some amount =>
      if amount ≤ 0 then (false, some "Total amount must be greater than 0")
      else
        match data.invoice_date with
        | some ds =>
          if ds != "" then
            match date_fromisoformat ds with
            | some _ => (true, Option.none)
            | Option.none =>
              (false, some ("Invalid date format: " ++ ds ++ " (expected YYYY-MM-DD)"))
          else (true, Option.none)
        | Option.none => (true, Option.none)

/-- Error triage of `process_document` step 3: derive `error_type` and
`missing_fields` from the validation message by substring tests. -/
def classifyValidationError (msg : String) : String × List String :=
  if strContains msg "supplier_email" then ("missing_email", ["supplier_email"])
  else if strContains msg "total_amount" then ("missing_total", ["total_amount"])
  else if strContains (pyLower msg) "date" then ("invalid_date", [])
  else ("validation_failed", [])

def manualSuggestion : String :=
  "You can create this invoice manually using POST /documents/\x7bid\x7d/create-invoice-manual"

/-! ## Automatic derivation (`POST /documents/{id}/process`) -/

/-- SQL equality against the nullable `Supplier.email` column: a `NULL`
column never matches. -/
def sqlEmailEq (column : Option String) (value : Option String) : Bool :=
  match column, value with
  | some c, some v => c == v
  | _, _ => false

/-- Model of `process_document`.  Here `extraction` is the outcome of
`extract_text_from_document` and `ai` the outcome of
`extract_invoice_data`, both exogenous; `now` is the wall clock.
Returns the new state and the created invoice id. -/
def process_document (db : DB) (caller document_id : Nat)
    (extraction : Except String String) (ai : Except String ExtractedData)
    (now : Nat) : Except ApiError (DB × Nat) :=
  match db.findOwnedDocument document_id caller with
  | Option.none => .error (.notFound "Document not found")
  | some document =>
    if document.status != "pending" then
      -- f"Document already {document.status.value}" evaluates `.value` on a
      -- plain string and raises before the 400 can be built.
      .error statusValueAttributeError
    else
      match extraction with
      | .error e => .error (.internalError ("Failed to extract text from document: " ++ e))
      | .ok document_text =>
        if document_text == "" || (pyStrip document_text).length < 10 then
          .error (.internalError
            "Failed to extract text from document: Insufficient text extracted from document")
        else
          match ai with
          | .error e => .error (.internalError ("AI extraction failed: " ++ e))
          | .ok extracted_data =>
            match validate_extracted_data extracted_data with
            | (false, msg) =>
              let m := msg.getD ""
              let (etype, fields) := classifyValidationError m
              .error (.badRequestProcessing {
                detail := m, error_type := etype,
                missing_fields := if fields.isEmpty then Option.none else some fields,
                suggestion := some manualSuggestion })
            | (true, _) =>
              match db.suppliers.find? (fun s =>
                  s.workspace_id == document.workspace_id &&
                  sqlEmailEq s.email extracted_data.supplier_email) with
              | Option.none => .error (.badRequestProcessing {
                  detail := "No supplier found with email: " ++
                    optPyStr extracted_data.supplier_email,
                  error_type := "supplier_not_found",
                  missing_fields := Option.none,
                  suggestion := some ("Add supplier with email '" ++
                    optPyStr extracted_data.supplier_email ++
                    "' first, or create invoice manually using POST /documents/" ++
                    toString document_id ++ "/create-invoice-manual") })
              | some supplier =>
                match pyFloat extracted_data.total_amount with
                | Option.none =>
                  .error (.unhandledException "ValueError: could not convert to float")
                | some original_total =>
                  let markup_total := original_total * (1 + supplier.markup_percentage / 100)
                  let invoice : Invoice := {
                    id := db.next_invoice_id,
                    supplier_id := supplier.id,
                    workspace_id := document.workspace_id,
                    original_total, markup_total,
                    pdf_url := document.pdf_url,
                    invoice_date := extracted_data.invoice_date.bind date_fromisoformat }
                  let document' := { document with
                    status := "processed", processed_at := some now }
                  .ok ({ db with
                    invoices := db.invoices ++ [invoice],
                    next_invoice_id := db.next_invoice_id + 1,
                    documents := db.documents.map
                      (fun d => if d.id == document.id then document' else d) },
                    invoice.id)

/-! ## Rejection (`POST /documents/{id}/reject`) -/

/-- Model of `reject_document`: ownership and status checks, a tolerated blob
deletion, then the terminal `rejected` transition. -/
def reject_document (db : DB) (caller document_id : Nat) (now : Nat) :
    Except ApiError DB :=
  match db.findOwnedDocument document_id caller with
  | Option.none => .error (.notFound "Document not found")
  | some document =>
    if document.status != "pending" then
      .error statusValueAttributeError
    else
      let (blobs', _delete_success) := deleteBlob db.blobs document.pdf_url
      let document' := { document with status := "rejected", processed_at := some now }
      .ok { db with
        blobs := blobs',
        documents := db.documents.map
          (fun d => if d.id == document.id then document' else d) }

/-! ## Manual derivation (`POST /documents/{id}/create-invoice-manual`) -/

/-- Request schema `ManualInvoiceCreate` (`original_total` is validated
`gt=0` by the framework before the handler runs). -/
structure ManualInvoiceCreate where
  supplier_id : Nat
  original_total : Rat
  invoice_date : Option PyDate
deriving Repr, DecidableEq

/-- Model of `create_invoice_manual`: ownership and status checks, the supplier
must exist in the document's workspace (404 otherwise), then the same
markup computation and atomic write as the automatic path. -/
def create_invoice_manual (db : DB) (caller document_id : Nat)
    (invoice_data : ManualInvoiceCreate) (now : Nat) : Except ApiError (DB × Nat) :=
  match db.findOwnedDocument document_id caller with
  | Option.none => .error (.notFound "Document not found")
  | some document =>
    if document.status != "pending" then
      .error statusValueAttributeError
    else
      match db.suppliers.find? (fun s =>
          s.id == invoice_data.supplier_id &&
          s.workspace_id == document.workspace_id) with
      | Option.none => .error (.notFound "Supplier not found in this workspace")
      | some supplier =>
        let original_total := invoice_data.original_total
        let markup_total := original_total * (1 + supplier.markup_percentage / 100)
        let invoice : Invoice := {
          id := db.next_invoice_id,
          supplier_id := supplier.id,
          workspace_id := document.workspace_id,
          original_total, markup_total,
          pdf_url := document.pdf_url,
          invoice_date := invoice_data.invoice_date }
        let document' := { document with status := "processed", processed_at := some now }
        .ok ({ db with
          invoices := db.invoices ++ [invoice],
          next_invoice_id := db.next_invoice_id + 1,
          documents := db.documents.map
            (fun d => if d.id == document.id then document' else d) },
          invoice.id)

/-! ## Invoice and supplier reads -/

/-- Handler of `GET /invoices/{id}` (`get_invoice`). -/
def get_invoice (db : DB) (caller invoice_id : Nat) : Except ApiError Invoice :=
  match db.findOwnedInvoice invoice_id caller with
  | Option.none => .error (.notFound "Invoice not found")
  | some invoice => .ok invoice

/-- Handler of `GET /suppliers/{id}/invoices` (`get_supplier_invoices`). -/
def get_supplier_invoices (db : DB) (caller supplier_id : Nat) :
    Except ApiError (List Invoice) :=
  match db.findOwnedSupplier supplier_id caller with
  | Option.none => .error (.notFound "Supplier not found")
  | some _ => .ok (db.invoices.filter (fun i => i.supplier_id == supplier_id))

/-! ## Consolidated invoices (`app/api/routes/workspaces.py`) -/

/-- The invoice selection shared by preview and generate: workspace
invoices with `start_date <= invoice_date <= end_date` (a `NULL`
`invoice_date` never satisfies the SQL comparison). -/
def consolidatedSelection (db : DB) (workspace_id : Nat)
    (start_date end_date : PyDate) : List Invoice :=
  db.invoices.filter (fun inv =>
    inv.workspace_id == workspace_id &&
    (match inv.invoice_date with
     | some d => PyDate.leb start_date d && PyDate.leb d end_date
     | Option.none => false))

structure ConsolidatedInvoicePreview where
  invoice_count : Nat
  total_original : Rat
  total_markup : Rat
  total_billed : Rat
  start_date : PyDate
  end_date : PyDate
deriving Repr, DecidableEq

/-- Handler of `POST /workspaces/{id}/preview-consolidated-invoice`. -/
def preview_consolidated_invoice (db : DB) (caller workspace_id : Nat)
    (start_date end_date : PyDate) : Except ApiError ConsolidatedInvoicePreview :=
  if !(db.ownsWorkspace workspace_id caller) then
    .error (.notFound "Workspace not found")
  else if PyDate.ltb end_date start_date then
    .error (.badRequest "End date must be after start date")
  else
    let invoices := consolidatedSelection db workspace_id start_date end_date
    let total_original := (invoices.map Invoice.original_total).sum
    let total_billed := (invoices.map Invoice.markup_total).sum
    .ok { invoice_count := invoices.length, total_original,
          total_markup := total_billed - total_original, total_billed,
          start_date, end_date }

/-- A line item of the consolidated PDF (`supplier_name`, `invoice_date`,
`amount = markup_total`). -/
structure ConsolidatedItem where
  supplier_name : String
  invoice_date : Option PyDate
  amount : Rat
deriving Repr, DecidableEq

/-- The `ORDER BY invoice_date ASC` comparison (`NULL`s last, as in
PostgreSQL). -/
def invoiceDateAsc (a b : Invoice) : Prop :=
  match a.invoice_date, b.invoice_date with
  | Option.none, Option.none => True
  | Option.none, some _ => False
  | some _, Option.none => True
  | some x, some y => PyDate.leb x y = true

instance : DecidableRel invoiceDateAsc := fun a b => by
  unfold invoiceDateAsc
  cases a.invoice_date <;> cases b.invoice_date <;> infer_instance

/-- The consolidated PDF content: one line item per selected invoice and
the grand total `calculate_total() = sum(item.amount)`. -/
structure ConsolidatedPdf where
  workspace_name : String
  invoice_items : List ConsolidatedItem
  total : Rat
deriving Repr, DecidableEq

/-- Handler of `POST /workspaces/{id}/generate-consolidated-invoice`: same checks and
selection as the preview plus the empty-selection 400, then the PDF data
(line items show only the markup amount). -/
def generate_consolidated_invoice (db : DB) (caller workspace_id : Nat)
    (start_date end_date : PyDate) : Except ApiError ConsolidatedPdf :=
  if !(db.ownsWorkspace workspace_id caller) then
    .error (.notFound "Workspace not found")
  else if PyDate.ltb end_date start_date then
    .error (.badRequest "End date must be after start date")
  else
    let invoices := (consolidatedSelection db workspace_id start_date end_date).insertionSort
      invoiceDateAsc
    if invoices.isEmpty then
      .error (.badRequest "No invoices found in workspace for the period")
    else
      let invoice_items := invoices.map (fun inv => {
        supplier_name := ((db.suppliers.find? (fun s => s.id == inv.supplier_id)).map
          Supplier.name).getD "",
        invoice_date := inv.invoice_date,
        amount := inv.markup_total : ConsolidatedItem })
      .ok { workspace_name :=
              ((db.findOwnedWorkspace workspace_id caller).map Workspace.name).getD "",
            invoice_items,
            total := (invoice_items.map ConsolidatedItem.amount).sum }

/-! ## Gmail sync (`app/services/gmail_service.py`, `app/api/routes/gmail.py`) -/

/-- A MIME part of a fetched message: `download_ok` is the outcome of the
attachment download + save attempt (its failure is caught and logged). -/
inductive MsgPart where
  | mk (filename : String) (hasAttachmentId : Bool) (download_ok : Bool)
       (size : Nat) (parts : List MsgPart)

/-- A candidate message of the search result; `fetch_ok` is the outcome of
`get_message_details` (its failure aborts the whole sync). -/
structure GmailMessage where
  id : String
  fetch_ok : Bool
  parts : List MsgPart

/-- A successfully downloaded attachment, as accumulated by
`download_pdf_attachments`. -/
structure AttachmentInfo where
  filename : String
  file_path : String
  size : Nat
deriving Repr, DecidableEq

/-- Modelling `uuid.uuid4()` by a counter-indexed fresh name. -/
def uuidName (n : Nat) : String := "uuid-" ++ toString n

mutual
/-- Model of `download_pdf_attachments.process_part`: a part whose filename ends in
`.pdf` (case-insensitively) and that carries an attachment id is
downloaded and saved (appended only when the download succeeds), then the
nested parts are walked.  The counter supplies `uuid4` values. -/
def process_part (workspace_id : Nat) : MsgPart → Nat → List AttachmentInfo × Nat
  | MsgPart.mk filename hasAttachmentId download_ok size children, ctr =>
    let (self, ctr1) :=
      if pyEndsWith (pyLower filename) ".pdf" && hasAttachmentId then
        if download_ok then
          ([{ filename, file_path := save_path workspace_id (uuidName ctr) filename, size :
              AttachmentInfo }], ctr + 1)
        else ([], ctr)
      else ([], ctr)
    let (rest, ctr2) := process_parts workspace_id children ctr1
    (self ++ rest, ctr2)

def process_parts (workspace_id : Nat) : List MsgPart → Nat → List AttachmentInfo × Nat
  | [], ctr => ([], ctr)
  | p :: ps, ctr =>
    let (a, ctr1) := process_part workspace_id p ctr
    let (b, ctr2) := process_parts workspace_id ps ctr1
    (a ++ b, ctr2)
end

/-- Model of `download_pdf_attachments`: walk the top-level parts of the message. -/
def download_pdf_attachments (workspace_id : Nat) (message : GmailMessage) (ctr : Nat) :
    List AttachmentInfo × Nat :=
  process_parts workspace_id message.parts ctr

/-- The dedup test of `sync_gmail_invoices` (lines 386-393): the query
filters on `gmail_message_id` only — the marker's workspace is not
constrained. -/
def isDuplicate (db : DB) (message_id : String) : Bool :=
  db.processed_emails.any (fun pe => pe.gmail_message_id == message_id)

structure SyncStats where
  emails_scanned : Nat
  invoices_detected : Nat
  documents_created : Nat
  duplicates_skipped : Nat
deriving Repr, DecidableEq

/-- Persist the pending documents of one message's attachments (the
per-attachment loop of step 6), also recording the saved blobs. -/
def addAttachmentDocs (workspace_id : Nat) (message_id : String) :
    List AttachmentInfo → DB → DB
  | [], db => db
  | a :: rest, db =>
    addAttachmentDocs workspace_id message_id rest
      { db with
        documents := db.documents ++ [{
          id := db.next_document_id, workspace_id, pdf_url := a.file_path,
          filename := a.filename, status := "pending",
          gmail_message_id := some message_id, processed_at := Option.none }],
        blobs := db.blobs ++ [a.file_path],
        next_document_id := db.next_document_id + 1 }

/-- The per-message loop of `sync_gmail_invoices` (step 6).  A failed
message fetch raises, aborting the sync (the session is rolled back). -/
def syncLoop (workspace_id : Nat) : List GmailMessage → DB → SyncStats → Nat →
    Except String (DB × SyncStats)
  | [], db, stats, _ => .ok (db, stats)
  | msg :: rest, db, stats, ctr =>
    if isDuplicate db msg.id then
      syncLoop workspace_id rest db
        { stats with duplicates_skipped := stats.duplicates_skipped + 1 } ctr
    else if !msg.fetch_ok then
      .error "Failed to get message details"
    else
      let (attachments, ctr') := download_pdf_attachments workspace_id msg ctr
      if attachments.isEmpty then
        syncLoop workspace_id rest db stats ctr'
      else
        let db' := addAttachmentDocs workspace_id msg.id attachments db
        let db'' := { db' with
          processed_emails := db'.processed_emails ++
            [{ gmail_message_id := msg.id, workspace_id }] }
        syncLoop workspace_id rest db''
          { stats with
            invoices_detected := stats.invoices_detected + attachments.length,
            documents_created := stats.documents_created + attachments.length } ctr'

/-- Model of `sync_gmail_invoices`: token refresh (exogenous outcome), then the
search result (`messages`, exogenous) is scanned; statistics start from
`emails_scanned = len(messages)`. -/
def sync_gmail_invoices (db : DB) (workspace_id : Nat) (refresh_ok : Bool)
    (messages : List GmailMessage) (ctr : Nat) : Except String (DB × SyncStats) :=
  if !refresh_ok then
    .error "Gmail sync failed: Failed to refresh Gmail access token"
  else
    match syncLoop workspace_id messages db
      { emails_scanned := messages.length, invoices_detected := 0,
        documents_created := 0, duplicates_skipped := 0 } ctr with
    | .ok r => .ok r
    | .error e => .error ("Gmail sync failed: " ++ e)

/-- Handler of `POST /gmail/sync` (`sync_gmail` route): ownership check, stored
refresh-token check, then the service call with error translation
(refresh errors to 400, quota to 429, the rest to 500). -/
def sync_gmail (db : DB) (caller workspace_id : Nat)
    (has_refresh_token refresh_ok : Bool) (messages : List GmailMessage) (ctr : Nat) :
    Except ApiError (DB × SyncStats) :=
  if !(db.ownsWorkspace workspace_id caller) then
    .error (.notFound "Workspace not found")
  else if !has_refresh_token then
    .error (.badRequest
      "Gmail access not authorized. Please re-authenticate with Gmail permissions.")
  else
    match sync_gmail_invoices db workspace_id refresh_ok messages ctr with
    | .ok r => .ok r
    | .error e =>
      if strContains (pyLower e) "refresh" then
        .error (.badRequest
          "Gmail authorization expired. Please re-authenticate by logging out and logging in again.")
      else if strContains (pyLower e) "quota" then
        .error (.tooManyRequests "Gmail API quota exceeded. Please try again later.")
      else
        .error (.internalError ("Gmail sync failed: " ++ e))

/-! ## Concrete fixtures for witnesses -/

/-- Workspace 1 owned by user 7. -/
def wsA : Workspace := ⟨1, 7, "Property A"⟩

/-- Workspace 2 owned by user 8. -/
def wsB : Workspace := ⟨2, 8, "Property B"⟩

/-- Supplier 1 of workspace 1, 15% markup. -/
def supA : Supplier := ⟨1, 1, "ABC Electric", some "billing@abc.com", 15⟩

/-- Supplier 5 of workspace 2, 10% markup. -/
def supB : Supplier := ⟨5, 2, "Other Co", some "other@b.com", 10⟩

def docPending : PendingDocument :=
  ⟨1, 1, "uploads/documents/1/u1_f.pdf", "f.pdf", "pending", Option.none, Option.none⟩

def docProcessed : PendingDocument :=
  ⟨2, 1, "uploads/documents/1/u2_g.pdf", "g.pdf", "processed", Option.none, some 5⟩

def docRejected : PendingDocument :=
  ⟨3, 1, "uploads/documents/1/u3_h.pdf", "h.pdf", "rejected", Option.none, some 6⟩

def invA : Invoice := ⟨1, 1, 1, 100, 115, "uploads/documents/1/u0_a.pdf", some ⟨2026, 1, 10⟩⟩

/-- A fixture state: two tenants, one dedup marker recorded for workspace 2. -/
def dbMain : DB := {
  workspaces := [wsA, wsB],
  suppliers := [supA, supB],
  invoices := [invA],
  documents := [docPending, docProcessed, docRejected],
  processed_emails := [⟨"m1", 2⟩],
  blobs := ["uploads/documents/1/u1_f.pdf", "uploads/documents/1/u0_a.pdf"],
  next_workspace_id := 3,
  next_invoice_id := 2,
  next_document_id := 4 }

def zeroStats : SyncStats :=
  { emails_scanned := 0, invoices_detected := 0, documents_created := 0,
    duplicates_skipped := 0 }

instance : Inhabited SyncStats := ⟨zeroStats⟩

/-! ## Non-ownership predicates and lookup lemmas -/

/-- The caller owns no workspace with this id. -/
def workspaceNotOwned (db : DB) (workspace_id caller : Nat) : Prop :=
  ∀ w ∈ db.workspaces, w.id = workspace_id → w.user_id ≠ caller

/-- Every document with this id (if any) sits in a workspace the caller
does not own. -/
def documentWorkspaceNotOwned (db : DB) (document_id caller : Nat) : Prop :=
  ∀ d ∈ db.documents, d.id = document_id →
    ∀ w ∈ db.workspaces, w.id = d.workspace_id → w.user_id ≠ caller

/-- Every invoice with this id (if any) sits in a workspace the caller
does not own. -/
def invoiceWorkspaceNotOwned (db : DB) (invoice_id caller : Nat) : Prop :=
  ∀ i ∈ db.invoices, i.id = invoice_id →
    ∀ w ∈ db.workspaces, w.id = i.workspace_id → w.user_id ≠ caller

/-- Every supplier with this id (if any) sits in a workspace the caller
does not own. -/
def supplierWorkspaceNotOwned (db : DB) (supplier_id caller : Nat) : Prop :=
  ∀ s ∈ db.suppliers, s.id = supplier_id →
    ∀ w ∈ db.workspaces, w.id = s.workspace_id → w.user_id ≠ caller

lemma ownsWorkspace_eq_false (db : DB) (workspace_id caller : Nat)
    (h : workspaceNotOwned db workspace_id caller) :
    db.ownsWorkspace workspace_id caller = false := by
  have hnone : db.findOwnedWorkspace workspace_id caller = Option.none := by
    unfold DB.findOwnedWorkspace
    rw [List.find?_eq_none]
    intro w hw
    simp only [Bool.and_eq_true, beq_iff_eq, not_and]
    intro hid
    exact h w hw hid
  unfold DB.ownsWorkspace
  rw [hnone]
  rfl

lemma findOwnedDocument_eq_none (db : DB) (document_id caller : Nat)
    (h : documentWorkspaceNotOwned db document_id caller) :
    db.findOwnedDocument document_id caller = Option.none := by
  unfold DB.findOwnedDocument
  rw [List.find?_eq_none]
  intro d hd
  simp only [Bool.and_eq_true, beq_iff_eq, List.any_eq_true, not_and]
  intro hid
  rintro ⟨w, hw, hwid, hwu⟩
  exact h d hd hid w hw hwid hwu

lemma findOwnedInvoice_eq_none (db : DB) (invoice_id caller : Nat)
    (h : invoiceWorkspaceNotOwned db invoice_id caller) :
    db.findOwnedInvoice invoice_id caller = Option.none := by
  unfold DB.findOwnedInvoice
  rw [List.find?_eq_none]
  intro i hi
  simp only [Bool.and_eq_true, beq_iff_eq, List.any_eq_true, not_and]
  intro hid
  rintro ⟨w, hw, hwid, hwu⟩
  exact h i hi hid w hw hwid hwu

lemma findOwnedSupplier_eq_none (db : DB) (supplier_id caller : Nat)
    (h : supplierWorkspaceNotOwned db supplier_id caller) :
    db.findOwnedSupplier supplier_id caller = Option.none := by
  unfold DB.findOwnedSupplier
  rw [List.find?_eq_none]
  intro s hs
  simp only [Bool.and_eq_true, beq_iff_eq, List.any_eq_true, not_and]
  intro hid
  rintro ⟨w, hw, hwid, hwu⟩
  exact h s hs hid w hw hwid hwu

/-- Drop every document with the given id (the entity-absent state). -/
def DB.eraseDocument (db : DB) (document_id : Nat) : DB :=
  { db with documents := db.documents.filter (fun d => d.id != document_id) }

/-- Drop every invoice with the given id. -/
def DB.eraseInvoice (db : DB) (invoice_id : Nat) : DB :=
  { db with invoices := db.invoices.filter (fun i => i.id != invoice_id) }

/-- Drop every workspace with the given id. -/
def DB.eraseWorkspace (db : DB) (workspace_id : Nat) : DB :=
  { db with workspaces := db.workspaces.filter (fun w => w.id != workspace_id) }

lemma eraseDocument_notOwned (db : DB) (document_id caller : Nat) :
    documentWorkspaceNotOwned (db.eraseDocument document_id) document_id caller := by
  intro d hd hid
  exfalso
  have := (List.mem_filter.mp hd).2
  simp only [bne_iff_ne, ne_eq] at this
  exact this hid

lemma eraseInvoice_notOwned (db : DB) (invoice_id caller : Nat) :
    invoiceWorkspaceNotOwned (db.eraseInvoice invoice_id) invoice_id caller := by
  intro i hi hid
  exfalso
  have := (List.mem_filter.mp hi).2
  simp only [bne_iff_ne, ne_eq] at this
  exact this hid

lemma eraseWorkspace_notOwned (db : DB) (workspace_id caller : Nat) :
    workspaceNotOwned (db.eraseWorkspace workspace_id) workspace_id caller := by
  intro w hw hid
  exfalso
  have := (List.mem_filter.mp hw).2
  simp only [bne_iff_ne, ne_eq] at this
  exact this hid

/-! ## Claim theorems -/

/-- C5: every workspace-scoped operation (document process/reject/manual
derivation, invoice and supplier access, upload, sync, consolidated
preview/generate) answers a caller who does not own the enclosing
workspace with `NotFound` carrying a constant message — the same result
as when the entity does not exist (shown by the erased-state conjuncts) —
and returns no data. -/
theorem cross_tenant_isolation_notFound
    (db : DB) (caller workspace_id document_id invoice_id supplier_id : Nat)
    (filename : String) (file_size : Nat) (uniqueId : String)
    (extraction : Except String String) (ai : Except String ExtractedData)
    (invoice_data : ManualInvoiceCreate) (now ctr : Nat)
    (start_date end_date : PyDate)
    (has_refresh_token refresh_ok : Bool) (messages : List GmailMessage)
    (hW : workspaceNotOwned db workspace_id caller)
    (hD : documentWorkspaceNotOwned db document_id caller)
    (hI : invoiceWorkspaceNotOwned db invoice_id caller)
    (hS : supplierWorkspaceNotOwned db supplier_id caller) :
    upload_document db caller workspace_id filename file_size uniqueId =
      .error (.notFound "Workspace not found") ∧
    sync_gmail db caller workspace_id has_refresh_token refresh_ok messages ctr =
      .error (.notFound "Workspace not found") ∧
    preview_consolidated_invoice db caller workspace_id start_date end_date =
      .error (.notFound "Workspace not found") ∧
    generate_consolidated_invoice db caller workspace_id start_date end_date =
      .error (.notFound "Workspace not found") ∧
    process_document db caller document_id extraction ai now =
      .error (.notFound "Document not found") ∧
    reject_document db caller document_id now =
      .error (.notFound "Document not found") ∧
    create_invoice_manual db caller document_id invoice_data now =
      .error (.notFound "Document not found") ∧
    get_invoice db caller invoice_id = .error (.notFound "Invoice not found") ∧
    get_supplier_invoices db caller supplier_id =
      .error (.notFound "Supplier not found") ∧
    process_document (db.eraseDocument document_id) caller document_id extraction ai now =
      .error (.notFound "Document not found") ∧
    get_invoice (db.eraseInvoice invoice_id) caller invoice_id =
      .error (.notFound "Invoice not found") ∧
    upload_document (db.eraseWorkspace workspace_id) caller workspace_id
      filename file_size uniqueId = .error (.notFound "Workspace not found") := by
  have hw := ownsWorkspace_eq_false db workspace_id caller hW
  have hd := findOwnedDocument_eq_none db document_id caller hD
  have hi := findOwnedInvoice_eq_none db invoice_id caller hI
  have hs := findOwnedSupplier_eq_none db supplier_id caller hS
  have hd' := findOwnedDocument_eq_none _ document_id caller
    (eraseDocument_notOwned db document_id caller)
  have hi' := findOwnedInvoice_eq_none _ invoice_id caller
    (eraseInvoice_notOwned db invoice_id caller)
  have hw' := ownsWorkspace_eq_false _ workspace_id caller
    (eraseWorkspace_notOwned db workspace_id caller)
  refine ⟨?_, ?_, ?_, ?_, ?_, ?_, ?_, ?_, ?_, ?_, ?_, ?_⟩
  · unfold upload_document; rw [hw]; rfl
  · unfold sync_gmail; rw [hw]; rfl
  · unfold preview_consolidated_invoice; rw [hw]; rfl
  · unfold generate_consolidated_invoice; rw [hw]; rfl
  · unfold process_document; rw [hd]
  · unfold reject_document; rw [hd]
  · unfold create_invoice_manual; rw [hd]
  · unfold get_invoice; rw [hi]
  · unfold get_supplier_invoices; rw [hs]
  · unfold process_document; rw [hd']
  · unfold get_invoice; rw [hi']
  · unfold upload_document; rw [hw']; rfl

/-- C5 witness: user 9 owns nothing in the fixture state, and every
operation answers `NotFound`. -/
theorem cross_tenant_isolation_notFound_witness :
    upload_document dbMain 9 1 "f.pdf" 10 "u9" =
      .error (.notFound "Workspace not found") ∧
    sync_gmail dbMain 9 1 true true [] 0 =
      .error (.notFound "Workspace not found") ∧
    preview_consolidated_invoice dbMain 9 1 ⟨2026, 1, 1⟩ ⟨2026, 1, 31⟩ =
      .error (.notFound "Workspace not found") ∧
    generate_consolidated_invoice dbMain 9 1 ⟨2026, 1, 1⟩ ⟨2026, 1, 31⟩ =
      .error (.notFound "Workspace not found") ∧
    process_document dbMain 9 1 (.ok "0123456789") (.error "n/a") 0 =
      .error (.notFound "Document not found") ∧
    reject_document dbMain 9 1 0 = .error (.notFound "Document not found") ∧
    create_invoice_manual dbMain 9 1 ⟨1, 100, Option.none⟩ 0 =
      .error (.notFound "Document not found") ∧
    get_invoice dbMain 9 1 = .error (.notFound "Invoice not found") ∧
    get_supplier_invoices dbMain 9 1 = .error (.notFound "Supplier not found") ∧
    process_document (dbMain.eraseDocument 1) 9 1 (.ok "0123456789") (.error "n/a") 0 =
      .error (.notFound "Document not found") ∧
    get_invoice (dbMain.eraseInvoice 1) 9 1 = .error (.notFound "Invoice not found") ∧
    upload_document (dbMain.eraseWorkspace 1) 9 1 "f.pdf" 10 "u9" =
      .error (.notFound "Workspace not found") :=
  cross_tenant_isolation_notFound dbMain 9 1 1 1 1 "f.pdf" 10 "u9"
    (.ok "0123456789") (.error "n/a") ⟨1, 100, Option.none⟩ 0 0
    ⟨2026, 1, 1⟩ ⟨2026, 1, 31⟩ true true []
    (by unfold workspaceNotOwned; decide)
    (by unfold documentWorkspaceNotOwned; decide)
    (by unfold invoiceWorkspaceNotOwned; decide)
    (by unfold supplierWorkspaceNotOwned; decide)

/-- C8: both `create_workspace` and `update_workspace` store the
whitespace-stripped submitted name, falling back to `"Workspace 1"` when
the stripped name is empty, so every stored workspace name is
non-empty. -/
theorem workspace_name_never_empty (db : DB) (caller workspace_id : Nat) (name : String) :
    ((create_workspace db caller name).2.name =
        (if pyStrip name = "" then "Workspace 1" else pyStrip name) ∧
      (create_workspace db caller name).2.name ≠ "" ∧
      (create_workspace db caller name).1.workspaces =
        db.workspaces ++ [(create_workspace db caller name).2]) ∧
    (∀ db' w, update_workspace db caller workspace_id name = .ok (db', w) →
      w.name = (if pyStrip name = "" then "Workspace 1" else pyStrip name) ∧
      w.name ≠ "" ∧ w ∈ db'.workspaces) := by
  constructor
  · unfold create_workspace
    by_cases h : pyStrip name = "" <;> simp [h]
  · intro db' w hu
    unfold update_workspace at hu
    cases hfind : db.findOwnedWorkspace workspace_id caller with
    | none => rw [hfind] at hu; exact Except.noConfusion hu
    | some workspace =>
      rw [hfind] at hu
      simp only [Except.ok.injEq, Prod.mk.injEq] at hu
      obtain ⟨hdb, hw⟩ := hu
      subst hdb
      subst hw
      refine ⟨rfl, ?_, ?_⟩
      · by_cases h : pyStrip name = "" <;> simp [h]
      · have hmem := List.mem_of_find?_eq_some hfind
        have := List.mem_map_of_mem
          (fun x => if x.id == workspace.id then
            { workspace with
              name := if pyStrip name = "" then "Workspace 1" else pyStrip name }
            else x) hmem
        simpa using this

/-- C8 witness: updating workspace 1 with an all-whitespace name stores
`"Workspace 1"`. -/
theorem workspace_name_never_empty_witness :
    update_workspace dbMain 7 1 "   " = .ok
      ({ dbMain with workspaces := [{ wsA with name := "Workspace 1" }, wsB] },
        { wsA with name := "Workspace 1" }) →
    ({ wsA with name := "Workspace 1" } : Workspace).name = "Workspace 1" ∧
    ({ wsA with name := "Workspace 1" } : Workspace).name ≠ "" ∧
    ({ wsA with name := "Workspace 1" } : Workspace) ∈
      ({ dbMain with workspaces := [{ wsA with name := "Workspace 1" }, wsB] } :
        DB).workspaces := by
  intro h
  have h2 := (workspace_name_never_empty dbMain 7 1 "   ").2 _ _ h
  exact ⟨by rw [h2.1]; decide, h2.2.1, h2.2.2⟩

/-- C2 (the code side): on a document whose status is terminal, each of
`process`, `reject` and `create_invoice_manual` evaluates
`document.status.value` on a plain string while building the intended
400 detail, so the handler raises `AttributeError` (an unhandled 500),
not the documented `InvalidState` response; no state is returned (an
`Except.error` result commits nothing). -/
theorem terminal_status_raises_attribute_error
    (db : DB) (caller document_id now : Nat)
    (extraction : Except String String) (ai : Except String ExtractedData)
    (invoice_data : ManualInvoiceCreate) (doc : PendingDocument)
    (hfind : db.findOwnedDocument document_id caller = some doc)
    (hterm : doc.status ≠ "pending") :
    process_document db caller document_id extraction ai now =
      .error statusValueAttributeError ∧
    reject_document db caller document_id now = .error statusValueAttributeError ∧
    create_invoice_manual db caller document_id invoice_data now =
      .error statusValueAttributeError := by
  have hne : (doc.status != "pending") = true := by simpa using hterm
  refine ⟨?_, ?_, ?_⟩
  · unfold process_document; rw [hfind]; simp [hne]
  · unfold reject_document; rw [hfind]; simp [hne]
  · unfold create_invoice_manual; rw [hfind]; simp [hne]

/-- C2 witness: on the already-`processed` fixture document (id 2) and
the already-`rejected` one (id 3), all three transition attempts surface
the `AttributeError`. -/
theorem terminal_status_raises_attribute_error_witness :
    (process_document dbMain 7 2 (.ok "0123456789") (.error "n/a") 0 =
        .error statusValueAttributeError ∧
      reject_document dbMain 7 2 0 = .error statusValueAttributeError ∧
      create_invoice_manual dbMain 7 2 ⟨1, 100, Option.none⟩ 0 =
        .error statusValueAttributeError) ∧
    (process_document dbMain 7 3 (.ok "0123456789") (.error "n/a") 0 =
        .error statusValueAttributeError ∧
      reject_document dbMain 7 3 0 = .error statusValueAttributeError ∧
      create_invoice_manual dbMain 7 3 ⟨1, 100, Option.none⟩ 0 =
        .error statusValueAttributeError) :=
  ⟨terminal_status_raises_attribute_error dbMain 7 2 0 (.ok "0123456789")
      (.error "n/a") ⟨1, 100, Option.none⟩ docProcessed (by decide) (by decide),
    terminal_status_raises_attribute_error dbMain 7 3 0 (.ok "0123456789")
      (.error "n/a") ⟨1, 100, Option.none⟩ docRejected (by decide) (by decide)⟩

/-- C1: whenever automatic (`process_document`) or manual
(`create_invoice_manual`) derivation creates an invoice, the stored
`markup_total` is `original_total * (1 + markup_percentage / 100)` for
the supplier the invoice references, and `original_total` is stored
unchanged (the coerced extracted amount, resp. the submitted amount). -/
theorem derived_invoice_markup
    (db : DB) (caller document_id now : Nat)
    (extraction : Except String String) (ai : Except String ExtractedData)
    (invoice_data : ManualInvoiceCreate) :
    (∀ db' invoice_id,
      process_document db caller document_id extraction ai now = .ok (db', invoice_id) →
      ∃ inv s d, ai = .ok d ∧ s ∈ db.suppliers ∧
        db'.invoices = db.invoices ++ [inv] ∧ inv.id = invoice_id ∧
        inv.supplier_id = s.id ∧
        pyFloat d.total_amount = some inv.original_total ∧
        inv.markup_total = inv.original_total * (1 + s.markup_percentage / 100)) ∧
    (∀ db' invoice_id,
      create_invoice_manual db caller document_id invoice_data now = .ok (db', invoice_id) →
      ∃ inv s, s ∈ db.suppliers ∧ s.id = invoice_data.supplier_id ∧
        db'.invoices = db.invoices ++ [inv] ∧ inv.id = invoice_id ∧
        inv.supplier_id = s.id ∧
        inv.original_total = invoice_data.original_total ∧
        inv.markup_total =
          invoice_data.original_total * (1 + s.markup_percentage / 100)) := by
  constructor
  · intro db' invoice_id h
    unfold process_document at h
    repeat' split at h
    all_goals try exact Except.noConfusion h
    simp only [Except.ok.injEq, Prod.mk.injEq] at h
    obtain ⟨hdb, hid⟩ := h
    subst hdb
    subst hid
    rename_i x0 amount hamount
    rename_i x1 supplier hsup
    exact ⟨_, supplier, _, rfl, List.mem_of_find?_eq_some hsup, rfl, rfl, rfl, hamount, rfl⟩
  · intro db' invoice_id h
    unfold create_invoice_manual at h
    repeat' split at h
    all_goals try exact Except.noConfusion h
    simp only [Except.ok.injEq, Prod.mk.injEq] at h
    obtain ⟨hdb, hid⟩ := h
    subst hdb
    subst hid
    rename_i x1 supplier hsup
    have hmem := List.mem_of_find?_eq_some hsup
    have hfs := List.find?_some hsup
    simp only [Bool.and_eq_true, beq_iff_eq] at hfs
    exact ⟨_, supplier, hmem, hfs.1, rfl, rfl, rfl, rfl, rfl⟩

/-- Exogenous AI output used by the C1 witness: matching supplier email,
ISO date, amount 100. -/
def aiDataW : ExtractedData :=
  { supplier_email := some "billing@abc.com", invoice_date := some "2026-01-15",
    total_amount := .num 100 }

/-- The state and invoice id produced by the C1 witness process run. -/
def procResW : DB × Nat :=
  ((process_document dbMain 7 1 (.ok "0123456789") (.ok aiDataW) 42).toOption).getD default

/-- The state and invoice id produced by the C1 witness manual run. -/
def manResW : DB × Nat :=
  ((create_invoice_manual dbMain 7 1 ⟨1, 200, some ⟨2026, 2, 1⟩⟩ 42).toOption).getD default

/-- C1 witness: concrete successful runs of both derivation paths on the
fixture (supplier markup 15%: 100 → 115 and 200 → 230). -/
theorem derived_invoice_markup_witness :
    (∃ inv s d, (Except.ok aiDataW : Except String ExtractedData) = .ok d ∧
      s ∈ dbMain.suppliers ∧
      procResW.1.invoices = dbMain.invoices ++ [inv] ∧ inv.id = procResW.2 ∧
      inv.supplier_id = s.id ∧
      pyFloat d.total_amount = some inv.original_total ∧
      inv.markup_total = inv.original_total * (1 + s.markup_percentage / 100)) ∧
    (∃ inv s, s ∈ dbMain.suppliers ∧
      s.id = (⟨1, 200, some ⟨2026, 2, 1⟩⟩ : ManualInvoiceCreate).supplier_id ∧
      manResW.1.invoices = dbMain.invoices ++ [inv] ∧ inv.id = manResW.2 ∧
      inv.supplier_id = s.id ∧
      inv.original_total = (⟨1, 200, some ⟨2026, 2, 1⟩⟩ : ManualInvoiceCreate).original_total ∧
      inv.markup_total = (⟨1, 200, some ⟨2026, 2, 1⟩⟩ : ManualInvoiceCreate).original_total *
        (1 + s.markup_percentage / 100)) :=
  ⟨(derived_invoice_markup dbMain 7 1 42 (.ok "0123456789") (.ok aiDataW)
      ⟨1, 200, some ⟨2026, 2, 1⟩⟩).1 procResW.1 procResW.2 rfl,
    (derived_invoice_markup dbMain 7 1 42 (.ok "0123456789") (.ok aiDataW)
      ⟨1, 200, some ⟨2026, 2, 1⟩⟩).2 manResW.1 manResW.2 rfl⟩

/-- C4 counterexample: on the fixture, manual derivation naming supplier 5
— which exists but belongs to workspace 2 while the document sits in
workspace 1 — fails with `NotFound` (404 "Supplier not found in this
workspace"), not with `InvalidInput` (400) as the claim states. -/
theorem manual_supplier_wrong_workspace_counterexample :
    supB ∈ dbMain.suppliers ∧ supB.id = 5 ∧ supB.workspace_id = 2 ∧
    dbMain.findOwnedDocument 1 7 = some docPending ∧
    docPending.workspace_id = 1 ∧ docPending.status = "pending" ∧
    create_invoice_manual dbMain 7 1 ⟨5, 100, Option.none⟩ 0 =
      .error (.notFound "Supplier not found in this workspace") := by decide

/-- C4 (amended): manual derivation on an owned, pending document whose
`supplier_id` names no supplier of the document's workspace fails with
`NotFound` ("Supplier not found in this workspace" — indistinguishable
from a nonexistent supplier); the error result creates no invoice and
leaves every stored record unchanged. -/
theorem manual_supplier_wrong_workspace_notFound
    (db : DB) (caller document_id now : Nat) (invoice_data : ManualInvoiceCreate)
    (doc : PendingDocument)
    (hfind : db.findOwnedDocument document_id caller = some doc)
    (hpend : doc.status = "pending")
    (hsup : ∀ s ∈ db.suppliers, s.id = invoice_data.supplier_id →
      s.workspace_id ≠ doc.workspace_id) :
    create_invoice_manual db caller document_id invoice_data now =
      .error (.notFound "Supplier not found in this workspace") := by
  have hst : (doc.status != "pending") = false := by rw [hpend]; rfl
  have hnone : db.suppliers.find? (fun s =>
      s.id == invoice_data.supplier_id && s.workspace_id == doc.workspace_id) =
      Option.none := by
    rw [List.find?_eq_none]
    intro s hs
    simp only [Bool.and_eq_true, beq_iff_eq, not_and]
    intro hid
    exact hsup s hs hid
  unfold create_invoice_manual
  rw [hfind]
  simp only [hst, Bool.false_eq_true, if_false, hnone]

/-- C4 witness: the amended statement applied at the fixture input. -/
theorem manual_supplier_wrong_workspace_notFound_witness :
    create_invoice_manual dbMain 7 1 ⟨5, 100, Option.none⟩ 0 =
      .error (.notFound "Supplier not found in this workspace") :=
  manual_supplier_wrong_workspace_notFound dbMain 7 1 0 ⟨5, 100, Option.none⟩
    docPending (by decide) (by decide) (by decide)

/-- C7: on an owned workspace, upload fails with `InvalidInput` exactly
when the lower-cased filename suffix is outside the allow-list or the
file size strictly exceeds 10 MiB; otherwise it stores a `pending`
document row for that workspace. -/
theorem upload_validation_exact
    (db : DB) (caller workspace_id : Nat)
    (filename : String) (file_size : Nat) (uniqueId : String)
    (h_owned : db.ownsWorkspace workspace_id caller = true) :
    (ALLOWED_EXTENSIONS.contains (pyLower (pathSuffix filename)) = false →
      upload_document db caller workspace_id filename file_size uniqueId =
        .error (.badRequest ("File type " ++ pyLower (pathSuffix filename) ++
          " not supported. Allowed: .doc, .docx, .jpeg, .jpg, .pdf, .png, .webp"))) ∧
    (ALLOWED_EXTENSIONS.contains (pyLower (pathSuffix filename)) = true →
      MAX_UPLOAD_SIZE < file_size →
      upload_document db caller workspace_id filename file_size uniqueId =
        .error (.badRequest "File too large. Max size: 10.0MB")) ∧
    (ALLOWED_EXTENSIONS.contains (pyLower (pathSuffix filename)) = true →
      file_size ≤ MAX_UPLOAD_SIZE →
      ∃ db' doc,
        upload_document db caller workspace_id filename file_size uniqueId =
          .ok (db', doc) ∧
        doc.status = "pending" ∧ doc.workspace_id = workspace_id ∧
        doc.filename = filename ∧
        db'.documents = db.documents ++ [doc]) := by
  unfold upload_document
  rw [h_owned]
  refine ⟨?_, ?_, ?_⟩
  · intro hext
    simp only [hext, Bool.not_true, Bool.not_false, Bool.false_eq_true, if_false, if_true]
  · intro hext hsize
    simp only [hext, Bool.not_true, Bool.false_eq_true, if_false]
    rw [if_pos hsize]
  · intro hext hsize
    simp only [hext, Bool.not_true, Bool.false_eq_true, if_false]
    rw [if_neg (Nat.not_lt.mpr hsize)]
    exact ⟨_, _, rfl, rfl, rfl, rfl, rfl⟩

/-- C7 witness: a disallowed extension, an oversized file, and a
successful upload, all on the owned fixture workspace. -/
theorem upload_validation_exact_witness :
    (upload_document dbMain 7 1 "evil.exe" 10 "u9" =
      .error (.badRequest ("File type " ++ pyLower (pathSuffix "evil.exe") ++
        " not supported. Allowed: .doc, .docx, .jpeg, .jpg, .pdf, .png, .webp"))) ∧
    (upload_document dbMain 7 1 "big.pdf" (MAX_UPLOAD_SIZE + 1) "u9" =
      .error (.badRequest "File too large. Max size: 10.0MB")) ∧
    (∃ db' doc, upload_document dbMain 7 1 "ok.PDF" 10 "u9" = .ok (db', doc) ∧
      doc.status = "pending" ∧ doc.workspace_id = 1 ∧ doc.filename = "ok.PDF" ∧
      db'.documents = dbMain.documents ++ [doc]) :=
  ⟨(upload_validation_exact dbMain 7 1 "evil.exe" 10 "u9" (by decide)).1 (by decide),
    (upload_validation_exact dbMain 7 1 "big.pdf" (MAX_UPLOAD_SIZE + 1) "u9"
      (by decide)).2.1 (by decide) (by decide),
    (upload_validation_exact dbMain 7 1 "ok.PDF" 10 "u9" (by decide)).2.2
      (by decide) (by decide)⟩

/-- C9: when the extracted `total_amount` is any falsy value (`null`,
`0`, `""`), validation reports the missing-field message and `process`
classifies it as `missing_total` — not as the greater-than-zero
violation, whose message classifies as the generic `validation_failed`. -/
theorem falsy_total_amount_missing_total
    (db : DB) (caller document_id now : Nat)
    (document_text : String) (data : ExtractedData) (doc : PendingDocument)
    (hfind : db.findOwnedDocument document_id caller = some doc)
    (hpend : doc.status = "pending")
    (htext1 : (document_text == "") = false)
    (htext2 : 10 ≤ (pyStrip document_text).length)
    (hemail : optStrTruthy data.supplier_email = true)
    (htotal : data.total_amount.truthy = false) :
    validate_extracted_data data =
      (false, some "Missing required field: total_amount") ∧
    classifyValidationError "Missing required field: total_amount" =
      ("missing_total", ["total_amount"]) ∧
    classifyValidationError "Total amount must be greater than 0" =
      ("validation_failed", []) ∧
    process_document db caller document_id (.ok document_text) (.ok data) now =
      .error (.badRequestProcessing {
        detail := "Missing required field: total_amount",
        error_type := "missing_total",
        missing_fields := some ["total_amount"],
        suggestion := some manualSuggestion }) := by
  have hval : validate_extracted_data data =
      (false, some "Missing required field: total_amount") := by
    unfold validate_extracted_data
    rw [hemail, htotal]
    rfl
  have hst : (doc.status != "pending") = false := by rw [hpend]; rfl
  have htext : (document_text == "" || decide ((pyStrip document_text).length < 10)) =
      false := by
    simp only [Bool.or_eq_false_iff, decide_eq_false_iff_not, Nat.not_lt]
    exact ⟨htext1, htext2⟩
  refine ⟨hval, by decide, by decide, ?_⟩
  unfold process_document
  rw [hfind]
  simp only [hst, Bool.false_eq_true, if_false, htext, hval]
  decide

/-- C9 witness: extraction output with `total_amount = 0` on the fixture
pending document. -/
theorem falsy_total_amount_missing_total_witness :
    process_document dbMain 7 1 (.ok "0123456789")
      (.ok ⟨some "billing@abc.com", Option.none, .num 0⟩) 0 =
      .error (.badRequestProcessing {
        detail := "Missing required field: total_amount",
        error_type := "missing_total",
        missing_fields := some ["total_amount"],
        suggestion := some manualSuggestion }) :=
  (falsy_total_amount_missing_total dbMain 7 1 0 "0123456789"
    ⟨some "billing@abc.com", Option.none, .num 0⟩ docPending
    (by decide) (by decide) (by decide) (by decide) (by decide) (by decide)).2.2.2

/-- C3 counterexample: in the fixture the only dedup marker (`"m1"`)
belongs to workspace 2, yet syncing workspace 1 skips the message with
that identifier (`duplicates_skipped = 1`), because the dedup query
filters on the message identifier only. -/
theorem sync_dedup_cross_workspace_counterexample :
    dbMain.processed_emails = [⟨"m1", 2⟩] ∧ (2 : Nat) ≠ 1 ∧
    sync_gmail dbMain 7 1 true true [⟨"m1", true, []⟩] 0 =
      .ok (dbMain, { emails_scanned := 1, invoices_detected := 0,
                     documents_created := 0, duplicates_skipped := 1 }) := by decide

/-- C3 (amended): a candidate message is skipped (incrementing
`duplicates_skipped`, touching nothing else) exactly when its message
identifier exists in the `ProcessedEmailMarker` table of ANY workspace —
the table is primary-keyed by message identifier alone and the dedup
query does not constrain the workspace. -/
theorem sync_dedup_is_global
    (workspace_id : Nat) (msg : GmailMessage) (rest : List GmailMessage)
    (db : DB) (stats : SyncStats) (ctr : Nat) :
    (isDuplicate db msg.id = true ↔
      ∃ pe ∈ db.processed_emails, pe.gmail_message_id = msg.id) ∧
    (isDuplicate db msg.id = true →
      syncLoop workspace_id (msg :: rest) db stats ctr =
        syncLoop workspace_id rest db
          { stats with duplicates_skipped := stats.duplicates_skipped + 1 } ctr) ∧
    (isDuplicate db msg.id = false → msg.fetch_ok = true →
      syncLoop workspace_id (msg :: rest) db stats ctr =
        (match download_pdf_attachments workspace_id msg ctr with
         | (attachments, ctr') =>
           if attachments.isEmpty then syncLoop workspace_id rest db stats ctr'
           else
             let db' := addAttachmentDocs workspace_id msg.id attachments db
             let db'' := { db' with processed_emails := db'.processed_emails ++
               [{ gmail_message_id := msg.id, workspace_id }] }
             syncLoop workspace_id rest db''
               { stats with
                 invoices_detected := stats.invoices_detected + attachments.length,
                 documents_created := stats.documents_created + attachments.length }
               ctr')) := by
  refine ⟨?_, ?_, ?_⟩
  · unfold isDuplicate
    simp [List.any_eq_true]
  · intro h
    conv_lhs => simp only [syncLoop]
    simp only [h, if_true]
  · intro h1 h2
    conv_lhs => simp only [syncLoop]
    simp only [h1, h2, Bool.false_eq_true, if_false, Bool.not_true]

/-- C3 amended-theorem witness: the skip equation applied at the fixture,
where the matching marker belongs to another workspace. -/
theorem sync_dedup_is_global_witness :
    syncLoop 1 [⟨"m1", true, []⟩] dbMain zeroStats 0 =
      syncLoop 1 [] dbMain { zeroStats with duplicates_skipped := 1 } 0 :=
  (sync_dedup_is_global 1 ⟨"m1", true, []⟩ [] dbMain zeroStats 0).2.1 (by decide)

lemma addAttachmentDocs_documents_length (workspace_id : Nat) (message_id : String) :
    ∀ (attachments : List AttachmentInfo) (db : DB),
      (addAttachmentDocs workspace_id message_id attachments db).documents.length =
        db.documents.length + attachments.length := by
  intro attachments
  induction attachments with
  | nil => intro db; simp [addAttachmentDocs]
  | cons a rest ih =>
    intro db
    unfold addAttachmentDocs
    rw [ih]
    simp
    omega

/-- The running invariant of the per-message loop: the gap between
`invoices_detected` and `documents_created` never changes, and the
document-row count grows exactly with `documents_created`. -/
lemma syncLoop_stats_invariant (workspace_id : Nat) :
    ∀ (messages : List GmailMessage) (db : DB) (stats : SyncStats) (ctr : Nat)
      (db' : DB) (stats' : SyncStats),
      syncLoop workspace_id messages db stats ctr = .ok (db', stats') →
      stats'.invoices_detected + stats.documents_created =
        stats'.documents_created + stats.invoices_detected ∧
      db'.documents.length + stats.documents_created =
        db.documents.length + stats'.documents_created := by
  intro messages
  induction messages with
  | nil =>
    intro db stats ctr db' stats' h
    unfold syncLoop at h
    simp only [Except.ok.injEq, Prod.mk.injEq] at h
    obtain ⟨h1, h2⟩ := h
    subst h1
    subst h2
    omega
  | cons msg rest ih =>
    intro db stats ctr db' stats' h
    unfold syncLoop at h
    split at h
    · have := ih _ _ _ _ _ h
      dsimp at this
      omega
    · split at h
      · exact Except.noConfusion h
      · split at h
        rename_i attachments ctr2 hdl
        split at h
        · exact ih _ _ _ _ _ h
        · have := ih _ _ _ _ _ h
          dsimp at this
          rw [addAttachmentDocs_documents_length] at this
          omega

/-- C10: a successfully completed sync reports
`invoices_detected = documents_created`; the run appends exactly
`documents_created` pending-document rows; and a leaf part whose
download fails contributes to neither statistic. -/
theorem sync_detected_eq_created
    (db : DB) (workspace_id : Nat) (refresh_ok : Bool)
    (messages : List GmailMessage) (ctr : Nat) (db' : DB) (stats : SyncStats)
    (h : sync_gmail_invoices db workspace_id refresh_ok messages ctr = .ok (db', stats)) :
    stats.invoices_detected = stats.documents_created ∧
    db'.documents.length = db.documents.length + stats.documents_created ∧
    (∀ (filename : String) (hasAttachmentId : Bool) (size c : Nat),
      process_part workspace_id (MsgPart.mk filename hasAttachmentId false size []) c =
        ([], c)) := by
  unfold sync_gmail_invoices at h
  split at h
  · exact Except.noConfusion h
  · split at h
    · rename_i r hloop
      simp only [Except.ok.injEq] at h
      subst h
      have hinv := syncLoop_stats_invariant workspace_id messages db _ ctr db' stats hloop
      dsimp at hinv
      refine ⟨by omega, by omega, ?_⟩
      intro filename hasAttachmentId size c
      unfold process_part process_parts
      by_cases hc : (pyEndsWith (pyLower filename) ".pdf" && hasAttachmentId) = true <;>
        simp [hc]
    · exact Except.noConfusion h

/-- The result of the C10 witness run: one new message with one
successfully downloaded PDF attachment. -/
def syncResW : DB × SyncStats :=
  ((sync_gmail_invoices dbMain 1 true
    [⟨"m2", true, [.mk "a.pdf" true true 5 []]⟩] 0).toOption).getD default

/-- C10 witness: the statistics equation applied to the concrete
successful run. -/
theorem sync_detected_eq_created_witness :
    syncResW.2.invoices_detected = syncResW.2.documents_created ∧
    syncResW.1.documents.length =
      dbMain.documents.length + syncResW.2.documents_created ∧
    (∀ (filename : String) (hasAttachmentId : Bool) (size c : Nat),
      process_part 1 (MsgPart.mk filename hasAttachmentId false size []) c = ([], c)) :=
  sync_detected_eq_created dbMain 1 true [⟨"m2", true, [.mk "a.pdf" true true 5 []]⟩] 0
    syncResW.1 syncResW.2 rfl

/-- C6: preview and generate over an owned workspace and a valid range
select exactly the workspace's invoices with
`start_date <= invoice_date <= end_date` (both ends inclusive), and
report `total_billed = sum(markup_total)` and
`total_markup = total_billed - total_original`; generate's line items
carry the markup amounts of the same selection and its grand total is
the same markup sum. -/
theorem consolidated_range_and_totals
    (db : DB) (caller workspace_id : Nat) (start_date end_date : PyDate)
    (h_owned : db.ownsWorkspace workspace_id caller = true)
    (h_range : PyDate.ltb end_date start_date = false) :
    (∀ inv, inv ∈ consolidatedSelection db workspace_id start_date end_date ↔
      inv ∈ db.invoices ∧ inv.workspace_id = workspace_id ∧
      ∃ d, inv.invoice_date = some d ∧
        PyDate.leb start_date d = true ∧ PyDate.leb d end_date = true) ∧
    (∃ p, preview_consolidated_invoice db caller workspace_id start_date end_date =
        .ok p ∧
      p.invoice_count =
        (consolidatedSelection db workspace_id start_date end_date).length ∧
      p.total_original = ((consolidatedSelection db workspace_id start_date end_date).map
        Invoice.original_total).sum ∧
      p.total_billed = ((consolidatedSelection db workspace_id start_date end_date).map
        Invoice.markup_total).sum ∧
      p.total_markup = p.total_billed - p.total_original) ∧
    (∀ pdf, generate_consolidated_invoice db caller workspace_id start_date end_date =
        .ok pdf →
      pdf.total = ((consolidatedSelection db workspace_id start_date end_date).map
        Invoice.markup_total).sum ∧
      pdf.invoice_items.length =
        (consolidatedSelection db workspace_id start_date end_date).length ∧
      ∀ item ∈ pdf.invoice_items,
        ∃ inv ∈ consolidatedSelection db workspace_id start_date end_date,
          item.amount = inv.markup_total ∧ item.invoice_date = inv.invoice_date) := by
  have hperm := List.perm_insertionSort invoiceDateAsc
    (consolidatedSelection db workspace_id start_date end_date)
  refine ⟨?_, ?_, ?_⟩
  · intro inv
    unfold consolidatedSelection
    rw [List.mem_filter]
    rcases hd : inv.invoice_date with _ | d
    · simp [hd]
    · simp [hd]
  · have hp : preview_consolidated_invoice db caller workspace_id start_date end_date =
        .ok { invoice_count :=
                (consolidatedSelection db workspace_id start_date end_date).length,
              total_original := ((consolidatedSelection db workspace_id start_date
                end_date).map Invoice.original_total).sum,
              total_markup := ((consolidatedSelection db workspace_id start_date
                end_date).map Invoice.markup_total).sum -
                ((consolidatedSelection db workspace_id start_date end_date).map
                  Invoice.original_total).sum,
              total_billed := ((consolidatedSelection db workspace_id start_date
                end_date).map Invoice.markup_total).sum,
              start_date, end_date } := by
      unfold preview_consolidated_invoice
      rw [h_owned, h_range]
      rfl
    exact ⟨_, hp, rfl, rfl, rfl, rfl⟩
  · intro pdf hg
    unfold generate_consolidated_invoice at hg
    rw [h_owned, h_range] at hg
    simp only [Bool.not_true, Bool.false_eq_true, if_false] at hg
    split at hg
    · exact Except.noConfusion hg
    · simp only [Except.ok.injEq] at hg
      subst hg
      refine ⟨?_, ?_, ?_⟩
      · show ((List.map _ _).map ConsolidatedItem.amount).sum = _
        rw [List.map_map]
        exact (hperm.map Invoice.markup_total).sum_eq
      · show (List.map _ _).length = _
        rw [List.length_map]
        exact hperm.length_eq
      · intro item hitem
        rw [List.mem_map] at hitem
        obtain ⟨inv, hinv, rfl⟩ := hitem
        exact ⟨inv, hperm.mem_iff.mp hinv, rfl, rfl⟩

/-- C6 witness: fixture workspace 1, January 2026 — the single invoice
(dated 2026-01-10) is selected by both endpoints. -/
theorem consolidated_range_and_totals_witness :
    (∀ inv, inv ∈ consolidatedSelection dbMain 1 ⟨2026, 1, 1⟩ ⟨2026, 1, 31⟩ ↔
      inv ∈ dbMain.invoices ∧ inv.workspace_id = 1 ∧
      ∃ d, inv.invoice_date = some d ∧
        PyDate.leb ⟨2026, 1, 1⟩ d = true ∧ PyDate.leb d ⟨2026, 1, 31⟩ = true) ∧
    (∃ p, preview_consolidated_invoice dbMain 7 1 ⟨2026, 1, 1⟩ ⟨2026, 1, 31⟩ = .ok p ∧
      p.invoice_count = (consolidatedSelection dbMain 1 ⟨2026, 1, 1⟩ ⟨2026, 1, 31⟩).length ∧
      p.total_original = ((consolidatedSelection dbMain 1 ⟨2026, 1, 1⟩ ⟨2026, 1, 31⟩).map
        Invoice.original_total).sum ∧
      p.total_billed = ((consolidatedSelection dbMain 1 ⟨2026, 1, 1⟩ ⟨2026, 1, 31⟩).map
        Invoice.markup_total).sum ∧
      p.total_markup = p.total_billed - p.total_original) ∧
    (∀ pdf, generate_consolidated_invoice dbMain 7 1 ⟨2026, 1, 1⟩ ⟨2026, 1, 31⟩ =
        .ok pdf →
      pdf.total = ((consolidatedSelection dbMain 1 ⟨2026, 1, 1⟩ ⟨2026, 1, 31⟩).map
        Invoice.markup_total).sum ∧
      pdf.invoice_items.length =
        (consolidatedSelection dbMain 1 ⟨2026, 1, 1⟩ ⟨2026, 1, 31⟩).length ∧
      ∀ item ∈ pdf.invoice_items,
        ∃ inv ∈ consolidatedSelection dbMain 1 ⟨2026, 1, 1⟩ ⟨2026, 1, 31⟩,
          item.amount = inv.markup_total ∧ item.invoice_date = inv.invoice_date) :=
  consolidated_range_and_totals dbMain 7 1 ⟨2026, 1, 1⟩ ⟨2026, 1, 31⟩
    (by decide) (by decide)

end Invoices
